import Mathlib

/-!
A Lean model of `format_symphony_user.py`, a tool converting CSV user rows
into the SirsiDynix Symphony LDUSER ASCII format, together with proofs of
the behavioural properties of its transformers, record builder, record
writer, batch converter and retention pass.

Strings are modelled by Lean `String` (a list of characters); the impure
inputs of the Python code (current calendar year, file timestamps) are
passed as explicit parameters; Python exceptions (`ValueError` from
`int()`) are modelled by `Option`.
-/

/-- The whitespace characters stripped by Python `str.rstrip()` /
`str.strip()` (the ASCII ones, which are the only ones arising here). -/
def isPySpace (c : Char) : Bool :=
  c == ' ' || c == '\t' || c == '\n' || c == '\x0D' || c == '\x0B' || c == '\x0C'

/-- Python `value.rstrip()`: drop trailing whitespace. -/
def pyRstrip (s : String) : String :=
  ⟨(s.data.reverse.dropWhile isPySpace).reverse⟩

/-- `p` is a prefix of `l` (models Python `str.startswith` on char lists). -/
def prefOf : List Char → List Char → Bool
  | [], _ => true
  | _ :: _, [] => false
  | a :: as, b :: bs => a == b && prefOf as bs

/-- `p` occurs as a contiguous substring of `l` (models Python `x in s`). -/
def infOf (p : List Char) : List Char → Bool
  | [] => prefOf p []
  | b :: bs => prefOf p (b :: bs) || infOf p bs

/-- `p` is a suffix of `l` (models Python `str.endswith`). -/
def sufOf (p l : List Char) : Bool := prefOf p.reverse l.reverse

/-- The marker substrings tested by `write_value` (`markers = ['_BEGIN', '_END']`). -/
def markers : List String := ["_BEGIN", "_END"]

/-- `write_value(file, field, value)` from the source, returned as the string
appended to the file: rstrip the value, write `.field.`, then either just a
newline when `'_BEGIN'` or `'_END'` occurs in the field name, or three
spaces, `|`, `a`, the value and a newline. -/
def write_value (field value : String) : String :=
  let v := pyRstrip value
  if markers.any (fun x => infOf x.data field.data) then
    "." ++ field ++ "." ++ "\n"
  else
    "." ++ field ++ "." ++ "   " ++ "|" ++ "a" ++ v ++ "\n"

/-- `transform_zip(number)`: `number.split('-')[0]`, i.e. the characters
before the first `'-'` (the whole string when there is none). -/
def transform_zip (number : String) : String :=
  ⟨number.data.takeWhile (fun c => c != '-')⟩

/-- Replace every occurrence of the character `c` by the character list `r`
(models Python `str.replace` with a one-character pattern). -/
def replL (c : Char) (r : List Char) : List Char → List Char
  | [] => []
  | x :: xs => if x = c then r ++ replL c r xs else x :: replL c r xs

/-- `transform_phone(number)`:
`number.replace('(', '').replace(')', ' ').replace('-', ' ')`. -/
def transform_phone (number : String) : String :=
  ⟨replL '-' [' '] (replL ')' [' '] (replL '(' [] number.data))⟩

/-- Python `str.strip()` on a character list. -/
def pyStrip (l : List Char) : List Char :=
  ((l.dropWhile isPySpace).reverse.dropWhile isPySpace).reverse

/-- Value of a non-empty digit string. -/
def digitsVal (l : List Char) : Nat :=
  l.foldl (fun acc c => acc * 10 + (c.toNat - '0'.toNat)) 0

/-- Models Python `int(s)` on strings: optional surrounding whitespace, an
optional sign, then at least one decimal digit; anything else raises
`ValueError`, modelled as `none`. -/
def parsePyInt (s : String) : Option Int :=
  match pyStrip s.data with
  | '+' :: rest =>
      if !rest.isEmpty && rest.all Char.isDigit then some (digitsVal rest) else none
  | '-' :: rest =>
      if !rest.isEmpty && rest.all Char.isDigit then some (-(digitsVal rest : Int)) else none
  | rest =>
      if !rest.isEmpty && rest.all Char.isDigit then some (digitsVal rest) else none

/-- Python `str(i)` for an integer. -/
def pyStr (i : Int) : String := toString i

/-- `get_grad_year(year, grade)` from the source, with the impure
`datetime.today().strftime('%Y')` passed in as `curr_year`: use the provided
year when non-empty, otherwise `12 - int(grade) + curr_year`; `none` models
the `ValueError` raised by `int()` on a non-numeric grade. -/
def get_grad_year (year grade : String) (curr_year : Int) : Option String :=
  if year ≠ "" then
    some year
  else
    match parsePyInt grade with
    | none => none
    | some g => some (pyStr (12 - g + curr_year))

/- ### Helper lemmas -/

theorem takeWhile_append_of_all (p : Char → Bool) (l r : List Char)
    (h : ∀ c ∈ l, p c = true) : (l ++ r).takeWhile p = l ++ r.takeWhile p := by
  induction l with
  | nil => simp
  | cons a as ih =>
      simp only [List.cons_append, List.takeWhile_cons, h a (List.mem_cons_self a as)]
      simpa using ih (fun c hc => h c (List.mem_cons_of_mem a hc))

theorem takeWhile_eq_self_of_all (p : Char → Bool) (l : List Char)
    (h : ∀ c ∈ l, p c = true) : l.takeWhile p = l := by
  induction l with
  | nil => simp
  | cons a as ih =>
      simp only [List.takeWhile_cons, h a (List.mem_cons_self a as)]
      simpa using ih (fun c hc => h c (List.mem_cons_of_mem a hc))

theorem string_mk_data (s : String) : String.mk s.data = s := rfl

theorem string_data_append (a b : String) : (a ++ b).data = a.data ++ b.data := by
  cases a; cases b; rfl

/-- Claim C3: `transform_zip` returns exactly the substring before the first
hyphen when the input contains one, and the input unchanged when it does
not; no digit-count or format validation takes place. -/
theorem transform_zip_spec (a b s : String) (ha : '-' ∉ a.data) (hs : '-' ∉ s.data) :
    transform_zip (a ++ "-" ++ b) = a ∧ transform_zip s = s := by
  constructor
  · show String.mk _ = a
    conv_rhs => rw [← string_mk_data a]
    congr 1
    rw [string_data_append, string_data_append]
    show (a.data ++ ['-'] ++ b.data).takeWhile (fun c => c != '-') = a.data
    rw [List.append_assoc,
      takeWhile_append_of_all _ _ _ (fun c hc => by
        simp only [bne_iff_ne, ne_eq, decide_eq_true_eq]
        exact fun e => ha (e ▸ hc))]
    simp [List.takeWhile_cons]
  · show String.mk _ = s
    conv_rhs => rw [← string_mk_data s]
    congr 1
    exact takeWhile_eq_self_of_all _ _ (fun c hc => by
      simp only [bne_iff_ne, ne_eq, decide_eq_true_eq]
      exact fun e => hs (e ▸ hc))

theorem transform_zip_spec_witness :
    transform_zip ("12345" ++ "-" ++ "6789") = "12345" ∧ transform_zip "98765" = "98765" :=
  transform_zip_spec "12345" "6789" "98765" (by decide) (by decide)

theorem digit_not_special {c : Char} (h : c.isDigit = true) :
    c ≠ '(' ∧ c ≠ ')' ∧ c ≠ '-' :=
  ⟨fun e => absurd h (by rw [e]; decide),
   fun e => absurd h (by rw [e]; decide),
   fun e => absurd h (by rw [e]; decide)⟩

/-- Claim C4: on an input of the literal shape `(DDD)DDD-DDDD` with all `D`
digits, `transform_phone` removes the opening parenthesis and replaces the
closing parenthesis and the hyphen by single spaces, giving `DDD DDD DDDD`. -/
theorem transform_phone_spec (a b c d e f g h i j : Char)
    (hd : ∀ x ∈ [a, b, c, d, e, f, g, h, i, j], x.isDigit = true) :
    transform_phone ⟨['(', a, b, c, ')', d, e, f, '-', g, h, i, j]⟩ =
      ⟨[a, b, c, ' ', d, e, f, ' ', g, h, i, j]⟩ := by
  have ha := digit_not_special (hd a (by simp))
  have hb := digit_not_special (hd b (by simp))
  have hc := digit_not_special (hd c (by simp))
  have hd' := digit_not_special (hd d (by simp))
  have he := digit_not_special (hd e (by simp))
  have hf := digit_not_special (hd f (by simp))
  have hg := digit_not_special (hd g (by simp))
  have hh := digit_not_special (hd h (by simp))
  have hi := digit_not_special (hd i (by simp))
  have hj := digit_not_special (hd j (by simp))
  show String.mk _ = String.mk _
  congr 1
  simp [replL, ha.1, ha.2.1, ha.2.2, hb.1, hb.2.1, hb.2.2, hc.1, hc.2.1, hc.2.2,
    hd'.1, hd'.2.1, hd'.2.2, he.1, he.2.1, he.2.2, hf.1, hf.2.1, hf.2.2,
    hg.1, hg.2.1, hg.2.2, hh.1, hh.2.1, hh.2.2, hi.1, hi.2.1, hi.2.2,
    hj.1, hj.2.1, hj.2.2]

theorem transform_phone_spec_witness :
    transform_phone ⟨['(', '5', '5', '5', ')', '5', '5', '5', '-', '5', '5', '5', '5']⟩ =
      ⟨['5', '5', '5', ' ', '5', '5', '5', ' ', '5', '5', '5', '5']⟩ :=
  transform_phone_spec '5' '5' '5' '5' '5' '5' '5' '5' '5' '5' (by decide)

/-- Claim C5: `get_grad_year` returns a non-empty provided year unchanged
regardless of grade, and for an empty provided year and a grade parsing to
the integer `g` returns the decimal string of `curr_year + (12 - g)`. -/
theorem get_grad_year_spec (year grade : String) (Y g : Int) :
    (year ≠ "" → get_grad_year year grade Y = some year) ∧
    (parsePyInt grade = some g → get_grad_year "" grade Y = some (pyStr (Y + (12 - g)))) := by
  constructor
  · intro hy
    simp [get_grad_year, hy]
  · intro hg
    simp [get_grad_year, hg]
    congr 1
    omega

theorem get_grad_year_spec_witness :
    get_grad_year "2026" "9" 2030 = some "2026" ∧
    get_grad_year "" "9" 2026 = some (pyStr (2026 + (12 - 9))) :=
  ⟨(get_grad_year_spec "2026" "9" 2030 9).1 (by decide),
   (get_grad_year_spec "" "9" 2026 9).2 (by decide)⟩

/-- Claim C6: `get_grad_year` fails (raises `ValueError`, modelled as
`none`) exactly when the provided year is empty and the grade is not
parseable as an integer; with a non-empty provided year it never fails. -/
theorem get_grad_year_error_iff (year grade : String) (Y : Int) :
    get_grad_year year grade Y = none ↔ year = "" ∧ parsePyInt grade = none := by
  by_cases hy : year = ""
  · subst hy
    cases hg : parsePyInt grade with
    | none => simp [get_grad_year, hg]
    | some g => simp [get_grad_year, hg]
  · simp [get_grad_year, hy]

/-- One CSV row with the required columns (`csv.DictReader` row). -/
structure InputRow where
  student_id : String
  first_name : String
  last_name : String
  birthdate : String
  grade : String
  grad_year : String
  street : String
  city : String
  state : String
  zip : String
  email : String
  phone_number : String

/-- The static values read from the `[data]` section of the configuration
file. `prefix_id` stands for the config key `id_prefix`. All fields being
present models a configuration supplying every needed key (a missing key is
a fatal error in the source). -/
structure Config where
  prefix_id : String
  USER_ROUTING_FLAG : String
  USER_NAME_DSP_PREF : String
  USER_LIBRARY : String
  USER_PROFILE : String
  USER_ACCESS : String
  USER_ENVIRONMENT : String
  USER_CATEGORY1 : String
  USER_CATEGORY11 : String
  expire_day : String
  USER_STATUS : String
  NOTIFY_VIA : String
  USER_CHG_HIST_RULE : String

/-- Python `s[-4:]`: the last `min 4 (length s)` characters (`user_id[-4:]`
in the source). -/
def pySliceLast4 (s : String) : String :=
  ⟨s.data.drop (s.data.length - 4)⟩

/-- The per-row body of the loop in `main` (lines 204-241 of the source):
derive zip, phone, graduation year and identifier, then build the
`ascii_record` ordered dictionary. `none` models the `ValueError` raised by
`get_grad_year` on a bad grade. -/
def process_row (cfg : Config) (curr_year : Int) (row : InputRow) :
    Option (List (String × String)) :=
  match get_grad_year row.grad_year row.grade curr_year with
  | none => none
  | some grad_year =>
    let zip_code := transform_zip row.zip
    let phone_number := transform_phone row.phone_number
    let user_id := cfg.prefix_id ++ row.student_id
    some [("USER_ID", user_id),
          ("USER_ROUTING_FLAG", cfg.USER_ROUTING_FLAG),
          ("USER_FIRST_NAME", row.first_name),
          ("USER_LAST_NAME", row.last_name),
          ("USER_NAME_DSP_PREF", cfg.USER_NAME_DSP_PREF),
          ("USER_BIRTH_DATE", row.birthdate),
          ("USER_LIBRARY", cfg.USER_LIBRARY),
          ("USER_PROFILE", cfg.USER_PROFILE),
          ("USER_PIN", pySliceLast4 user_id),
          ("USER_ACCESS", cfg.USER_ACCESS),
          ("USER_ENVIRONMENT", cfg.USER_ENVIRONMENT),
          ("USER_CATEGORY1", cfg.USER_CATEGORY1),
          ("USER_CATEGORY11", cfg.USER_CATEGORY11),
          ("USER_CATEGORY12", grad_year),
          ("USER_PRIV_EXPIRES", grad_year ++ cfg.expire_day),
          ("USER_STATUS", cfg.USER_STATUS),
          ("USER_MAILINGADDR", "1"),
          ("USER_ADDR1_BEGIN", ""),
          ("STREET", row.street),
          ("CITY/STATE", row.city ++ " " ++ row.state),
          ("ZIP", zip_code),
          ("PHONE", phone_number),
          ("EMAIL", row.email),
          ("USER_ADDR1_END", ""),
          ("USER_XINFO_BEGIN", ""),
          ("NOTIFY_VIA", cfg.NOTIFY_VIA),
          ("USER_XINFO_END", ""),
          ("USER_CHG_HIST_RULE", cfg.USER_CHG_HIST_RULE)]

/-- The tag names of `ascii_record`, in the order they are inserted. -/
def lduser_tags : List String :=
  ["USER_ID", "USER_ROUTING_FLAG", "USER_FIRST_NAME", "USER_LAST_NAME",
   "USER_NAME_DSP_PREF", "USER_BIRTH_DATE", "USER_LIBRARY", "USER_PROFILE",
   "USER_PIN", "USER_ACCESS", "USER_ENVIRONMENT", "USER_CATEGORY1",
   "USER_CATEGORY11", "USER_CATEGORY12", "USER_PRIV_EXPIRES", "USER_STATUS",
   "USER_MAILINGADDR", "USER_ADDR1_BEGIN", "STREET", "CITY/STATE", "ZIP",
   "PHONE", "EMAIL", "USER_ADDR1_END", "USER_XINFO_BEGIN", "NOTIFY_VIA",
   "USER_XINFO_END", "USER_CHG_HIST_RULE"]

/-- A sample configuration for concrete evaluations. -/
def cfg0 : Config :=
  ⟨"P", "Y", "N", "MAIN", "STUDENT", "PUBLIC", "PUBLIC", "STUDENT", "HS",
   "0601", "OK", "EMAIL", "ALLCHARGES"⟩

/-- A sample input row for concrete evaluations. -/
def row0 : InputRow :=
  ⟨"123456", "JANE", "DOE", "1/1/2010", "9", "2026", "1 MAIN ST", "TOWN",
   "UT", "12345-6789", "jane@example.com", "(555)555-5555"⟩

theorem process_row_eq (cfg : Config) (Y : Int) (row : InputRow)
    (r : List (String × String)) (h : process_row cfg Y row = some r)
    (gy : String) (hgy : get_grad_year row.grad_year row.grade Y = some gy) :
    r = [("USER_ID", cfg.prefix_id ++ row.student_id),
         ("USER_ROUTING_FLAG", cfg.USER_ROUTING_FLAG),
         ("USER_FIRST_NAME", row.first_name),
         ("USER_LAST_NAME", row.last_name),
         ("USER_NAME_DSP_PREF", cfg.USER_NAME_DSP_PREF),
         ("USER_BIRTH_DATE", row.birthdate),
         ("USER_LIBRARY", cfg.USER_LIBRARY),
         ("USER_PROFILE", cfg.USER_PROFILE),
         ("USER_PIN", pySliceLast4 (cfg.prefix_id ++ row.student_id)),
         ("USER_ACCESS", cfg.USER_ACCESS),
         ("USER_ENVIRONMENT", cfg.USER_ENVIRONMENT),
         ("USER_CATEGORY1", cfg.USER_CATEGORY1),
         ("USER_CATEGORY11", cfg.USER_CATEGORY11),
         ("USER_CATEGORY12", gy),
         ("USER_PRIV_EXPIRES", gy ++ cfg.expire_day),
         ("USER_STATUS", cfg.USER_STATUS),
         ("USER_MAILINGADDR", "1"),
         ("USER_ADDR1_BEGIN", ""),
         ("STREET", row.street),
         ("CITY/STATE", row.city ++ " " ++ row.state),
         ("ZIP", transform_zip row.zip),
         ("PHONE", transform_phone row.phone_number),
         ("EMAIL", row.email),
         ("USER_ADDR1_END", ""),
         ("USER_XINFO_BEGIN", ""),
         ("NOTIFY_VIA", cfg.NOTIFY_VIA),
         ("USER_XINFO_END", ""),
         ("USER_CHG_HIST_RULE", cfg.USER_CHG_HIST_RULE)] := by
  unfold process_row at h
  rw [hgy] at h
  exact (Option.some_injective _ h).symm ▸ rfl

/-- Claim C1 counterexample: on a concrete valid row and configuration the
built record has 28 tags, not 26. -/
theorem record_not_26_tags :
    ((process_row cfg0 2026 row0).getD []).length = 28 ∧ (28 : Nat) ≠ 26 :=
  ⟨rfl, by decide⟩

theorem record_map_fst (cfg : Config) (Y : Int) (row : InputRow)
    (r : List (String × String)) (h : process_row cfg Y row = some r) :
    r.map Prod.fst = lduser_tags := by
  unfold process_row at h
  cases hgy : get_grad_year row.grad_year row.grade Y with
  | none => rw [hgy] at h; exact absurd h (by simp)
  | some gy =>
      rw [hgy] at h
      rw [← Option.some_injective _ h]
      rfl

/-- Claim C1 (amended): for every valid input row and configuration the
built record consists of exactly the 28 tags of `lduser_tags`, in that
fixed order (identifier first, change-history rule last), with no
omissions. -/
theorem record_tags_fixed_order (cfg : Config) (Y : Int) (row : InputRow)
    (r : List (String × String)) (h : process_row cfg Y row = some r) :
    r.map Prod.fst = lduser_tags ∧ lduser_tags.length = 28 :=
  ⟨record_map_fst cfg Y row r h, rfl⟩

theorem record_tags_fixed_order_witness :
    ((process_row cfg0 2026 row0).getD []).map Prod.fst = lduser_tags ∧
    lduser_tags.length = 28 :=
  record_tags_fixed_order cfg0 2026 row0 _ rfl

/-- The boundary-marker naming convention of the specification: the tag name
ends with `_BEGIN` or `_END`. -/
def marker_suffix (tag : String) : Bool :=
  sufOf "_BEGIN".data tag.data || sufOf "_END".data tag.data

theorem marker_test_eq_suffix_on_tags : ∀ tag ∈ lduser_tags,
    (markers.any fun x => infOf x.data tag.data) = marker_suffix tag := by
  decide

/-- Claim C2: every (tag, value) pair of a built record is rendered by
`write_value` as `.TAG.` followed immediately by a newline exactly when the
tag ends with `_BEGIN` or `_END`, and otherwise as `.TAG.` followed by
three spaces, `|`, a literal `a`, the value with trailing whitespace
stripped, and a newline. -/
theorem write_value_line_shapes (cfg : Config) (Y : Int) (row : InputRow)
    (r : List (String × String)) (h : process_row cfg Y row = some r)
    (tag value : String) (hmem : (tag, value) ∈ r) :
    write_value tag value =
      if marker_suffix tag then "." ++ tag ++ "." ++ "\n"
      else "." ++ tag ++ "." ++ "   " ++ "|" ++ "a" ++ pyRstrip value ++ "\n" := by
  have htag : tag ∈ lduser_tags := by
    rw [← record_map_fst cfg Y row r h]
    exact List.mem_map_of_mem Prod.fst hmem
  have hc := marker_test_eq_suffix_on_tags tag htag
  simp only [write_value, hc]

theorem write_value_line_shapes_witness :
    write_value "USER_ID" (cfg0.prefix_id ++ row0.student_id) =
      if marker_suffix "USER_ID" then "." ++ "USER_ID" ++ "." ++ "\n"
      else "." ++ "USER_ID" ++ "." ++ "   " ++ "|" ++ "a" ++
        pyRstrip (cfg0.prefix_id ++ row0.student_id) ++ "\n" :=
  write_value_line_shapes cfg0 2026 row0 _ rfl "USER_ID"
    (cfg0.prefix_id ++ row0.student_id) (by decide)

/-- Claim C9: in every built record the `USER_PIN` value is `user_id[-4:]`,
the last `min 4 (length)` characters of the constructed identifier; when
the identifier is shorter than 4 characters the PIN is the whole
identifier, without error. -/
theorem user_pin_spec (cfg : Config) (Y : Int) (row : InputRow)
    (r : List (String × String)) (h : process_row cfg Y row = some r) :
    List.lookup "USER_PIN" r = some (pySliceLast4 (cfg.prefix_id ++ row.student_id)) ∧
    (pySliceLast4 (cfg.prefix_id ++ row.student_id)).data.length =
      min 4 (cfg.prefix_id ++ row.student_id).data.length ∧
    ((cfg.prefix_id ++ row.student_id).data.length < 4 →
      pySliceLast4 (cfg.prefix_id ++ row.student_id) = cfg.prefix_id ++ row.student_id) := by
  refine ⟨?_, ?_, ?_⟩
  · unfold process_row at h
    cases hgy : get_grad_year row.grad_year row.grade Y with
    | none => rw [hgy] at h; exact absurd h (by simp)
    | some gy =>
        rw [hgy] at h
        rw [← Option.some_injective _ h]
        rfl
  · show (List.drop _ _).length = _
    rw [List.length_drop]
    omega
  · intro hlt
    show String.mk _ = _
    conv_rhs => rw [← string_mk_data (cfg.prefix_id ++ row.student_id)]
    congr 1
    have h0 : (cfg.prefix_id ++ row.student_id).data.length - 4 = 0 := by omega
    rw [h0, List.drop_zero]

theorem user_pin_spec_witness :
    List.lookup "USER_PIN" ((process_row cfg0 2026 row0).getD []) =
      some (pySliceLast4 (cfg0.prefix_id ++ row0.student_id)) ∧
    (pySliceLast4 (cfg0.prefix_id ++ row0.student_id)).data.length =
      min 4 (cfg0.prefix_id ++ row0.student_id).data.length ∧
    ((cfg0.prefix_id ++ row0.student_id).data.length < 4 →
      pySliceLast4 (cfg0.prefix_id ++ row0.student_id) = cfg0.prefix_id ++ row0.student_id) :=
  user_pin_spec cfg0 2026 row0 _ rfl

/-- Claim C10: in every built record, for every configuration, the
`USER_MAILINGADDR` value is the constant string `"1"` (hardcoded, not
looked up from the configuration). -/
theorem user_mailingaddr_hardcoded (cfg : Config) (Y : Int) (row : InputRow)
    (r : List (String × String)) (h : process_row cfg Y row = some r) :
    List.lookup "USER_MAILINGADDR" r = some "1" ∧ ("USER_MAILINGADDR", "1") ∈ r := by
  unfold process_row at h
  cases hgy : get_grad_year row.grad_year row.grade Y with
  | none => rw [hgy] at h; exact absurd h (by simp)
  | some gy =>
      rw [hgy] at h
      rw [← Option.some_injective _ h]
      exact ⟨rfl, by simp⟩

theorem user_mailingaddr_hardcoded_witness :
    List.lookup "USER_MAILINGADDR" ((process_row cfg0 2026 row0).getD []) = some "1" ∧
    ("USER_MAILINGADDR", "1") ∈ (process_row cfg0 2026 row0).getD [] :=
  user_mailingaddr_hardcoded cfg0 2026 row0 _ rfl

theorem string_append_assoc (a b c : String) : a ++ b ++ c = a ++ (b ++ c) := by
  cases a; cases b; cases c
  show String.mk _ = String.mk _
  congr 1
  exact List.append_assoc ..

theorem string_append_empty (s : String) : s ++ "" = s := by
  cases s
  show String.mk _ = String.mk _
  congr 1
  exact List.append_nil _

theorem string_empty_append (s : String) : "" ++ s = s := by
  cases s
  rfl

/-- The inner loop `for field, value in ascii_record.items(): write_value(...)`:
the text appended to the file for one record. -/
def render_record : List (String × String) → String
  | [] => ""
  | p :: rest => write_value p.1 p.2 ++ render_record rest

/-- The outer loop of `main` over the CSV rows, accumulating the file
contents: for each row write `'*** DOCUMENT BOUNDARY ***\nFORM=LDUSER\n'`,
the record, and a blank separator line. `none` models the abort on a
`ValueError` from `get_grad_year`. -/
def convert_rows (cfg : Config) (curr_year : Int) : List InputRow → String → Option String
  | [], acc => some acc
  | row :: rest, acc =>
    match process_row cfg curr_year row with
    | none => none
    | some r =>
      convert_rows cfg curr_year rest
        (acc ++ ("*** DOCUMENT BOUNDARY ***\nFORM=LDUSER\n" ++ render_record r ++ "\n"))

/-- The records built from a row list, in order, when every row is valid. -/
def build_all (cfg : Config) (curr_year : Int) :
    List InputRow → Option (List (List (String × String)))
  | [] => some []
  | row :: rest =>
    match process_row cfg curr_year row, build_all cfg curr_year rest with
    | some r, some rs => some (r :: rs)
    | _, _ => none

/-- Concatenation of a list of strings in order. -/
def concatAll : List String → String
  | [] => ""
  | s :: rest => s ++ concatAll rest

theorem convert_rows_acc (cfg : Config) (Y : Int) (rows : List InputRow) :
    ∀ recs : List (List (String × String)), build_all cfg Y rows = some recs →
    ∀ acc : String, convert_rows cfg Y rows acc =
      some (acc ++ concatAll (recs.map fun r =>
        "*** DOCUMENT BOUNDARY ***\n" ++ "FORM=LDUSER\n" ++ render_record r ++ "\n")) := by
  induction rows with
  | nil =>
      intro recs h acc
      have hr : recs = [] := by simpa [build_all] using h.symm
      subst hr
      simp only [convert_rows, List.map_nil, concatAll]
      rw [string_append_empty]
  | cons row rest ih =>
      intro recs h acc
      unfold build_all at h
      cases hr : process_row cfg Y row with
      | none => rw [hr] at h; exact absurd h (by simp)
      | some r =>
          rw [hr] at h
          cases hrest : build_all cfg Y rest with
          | none => rw [hrest] at h; exact absurd h (by simp)
          | some rs =>
              rw [hrest] at h
              rw [← Option.some_injective _ h]
              simp only [convert_rows, hr]
              rw [ih rs hrest]
              rw [string_append_assoc]
              rfl

/-- Claim C8: converting a list of valid rows produces, in input order, one
block per row consisting of the line `*** DOCUMENT BOUNDARY ***`, the line
`FORM=LDUSER`, the rendered record, and one blank separator line. -/
theorem convert_rows_structure (cfg : Config) (Y : Int) (rows : List InputRow)
    (recs : List (List (String × String))) (h : build_all cfg Y rows = some recs) :
    convert_rows cfg Y rows "" =
      some (concatAll (recs.map fun r =>
        "*** DOCUMENT BOUNDARY ***\n" ++ "FORM=LDUSER\n" ++ render_record r ++ "\n")) := by
  rw [convert_rows_acc cfg Y rows recs h "", string_empty_append]

theorem convert_rows_structure_witness :
    convert_rows cfg0 2026 [row0] "" =
      some (concatAll (([(process_row cfg0 2026 row0).getD []]).map fun r =>
        "*** DOCUMENT BOUNDARY ***\n" ++ "FORM=LDUSER\n" ++ render_record r ++ "\n")) :=
  convert_rows_structure cfg0 2026 [row0] _ rfl

/-- The comparison behind `sorted(r.items(), reverse=True, key=itemgetter(1))`:
`a` precedes `b` when `a`'s timestamp is at least `b`'s. -/
def tsGE (a b : String × Int) : Prop := b.2 ≤ a.2

instance : DecidableRel tsGE := fun a b => inferInstanceAs (Decidable (b.2 ≤ a.2))

instance : IsTotal (String × Int) tsGE := ⟨fun a b => le_total b.2 a.2⟩

instance : IsTrans (String × Int) tsGE := ⟨fun _ _ _ hab hbc => le_trans hbc hab⟩

/-- `report_dates(report_dir)` from the source: the files of the directory
whose name ends with `.txt`, each with its creation timestamp truncated to
whole seconds (`int(creation_date(...))`). The directory is modelled as a
list of (name, truncated timestamp) pairs in listing order. -/
def report_dates (dir : List (String × Int)) : List (String × Int) :=
  dir.filter (fun f => sufOf ".txt".data f.1.data)

/-- `sorted_r` from the source: the matching files sorted descending by
timestamp (stably, as Python's `sorted` with `reverse=True`). -/
def retention_sorted (dir : List (String × Int)) : List (String × Int) :=
  List.insertionSort tsGE (report_dates dir)

/-- `sorted_r[10:]`: the files the retention pass deletes. -/
def retention_deleted (dir : List (String × Int)) : List (String × Int) :=
  (retention_sorted dir).drop 10

/-- `sorted_r[:10]`: the files the retention pass keeps. -/
def retention_kept (dir : List (String × Int)) : List (String × Int) :=
  (retention_sorted dir).take 10

/-- Claim C7: in a directory whose 15 matching `.txt` files have pairwise
distinct truncated timestamps, the retention pass deletes exactly the 5
oldest and keeps the 10 newest, and every deleted file is a matching file
of the directory (no file outside the suffix is touched). -/
theorem retention_spec (dir : List (String × Int))
    (hlen : (report_dates dir).length = 15)
    (hdist : (report_dates dir).Pairwise fun a b => a.2 ≠ b.2) :
    (retention_deleted dir).length = 5 ∧
    (retention_kept dir).length = 10 ∧
    (∀ d ∈ retention_deleted dir, ∀ k ∈ retention_kept dir, d.2 < k.2) ∧
    (∀ d ∈ retention_deleted dir, sufOf ".txt".data d.1.data = true ∧ d ∈ dir) ∧
    List.Perm (retention_kept dir ++ retention_deleted dir) (report_dates dir) := by
  have hperm : List.Perm (retention_sorted dir) (report_dates dir) :=
    List.perm_insertionSort tsGE _
  have hslen : (retention_sorted dir).length = 15 := by
    rw [hperm.length_eq, hlen]
  have hsorted : List.Sorted tsGE (retention_sorted dir) :=
    List.sorted_insertionSort tsGE _
  have hdist' : (retention_sorted dir).Pairwise fun a b => a.2 ≠ b.2 :=
    (hperm.pairwise_iff fun h => Ne.symm h).mpr hdist
  have hPW : List.Pairwise tsGE (retention_kept dir ++ retention_deleted dir) := by
    show List.Pairwise tsGE ((retention_sorted dir).take 10 ++ (retention_sorted dir).drop 10)
    rw [List.take_append_drop]
    exact hsorted
  have hPWne : List.Pairwise (fun a b : String × Int => a.2 ≠ b.2)
      (retention_kept dir ++ retention_deleted dir) := by
    show List.Pairwise _ ((retention_sorted dir).take 10 ++ (retention_sorted dir).drop 10)
    rw [List.take_append_drop]
    exact hdist'
  refine ⟨?_, ?_, ?_, ?_, ?_⟩
  · show ((retention_sorted dir).drop 10).length = 5
    rw [List.length_drop, hslen]
  · show ((retention_sorted dir).take 10).length = 10
    rw [List.length_take, hslen]
    decide
  · intro d hd k hk
    have h1 : tsGE k d := (List.pairwise_append.mp hPW).2.2 k hk d hd
    have h2 : k.2 ≠ d.2 := (List.pairwise_append.mp hPWne).2.2 k hk d hd
    exact lt_of_le_of_ne h1 fun e => h2 e.symm
  · intro d hd
    have hmem : d ∈ retention_sorted dir := List.mem_of_mem_drop hd
    have hmem2 : d ∈ report_dates dir := hperm.mem_iff.mp hmem
    have hmem3 : d ∈ List.filter (fun f : String × Int => sufOf ".txt".data f.1.data) dir :=
      hmem2
    obtain ⟨hmemdir, hp⟩ := List.mem_filter.mp hmem3
    exact ⟨hp, hmemdir⟩
  · show List.Perm ((retention_sorted dir).take 10 ++ (retention_sorted dir).drop 10) _
    rw [List.take_append_drop]
    exact hperm

/-- A sample directory listing: 15 matching reports with distinct
timestamps plus one non-matching file. -/
def dir0 : List (String × Int) :=
  [("LDUSER-01.txt", 1), ("LDUSER-02.txt", 2), ("LDUSER-03.txt", 3),
   ("LDUSER-04.txt", 4), ("LDUSER-05.txt", 5), ("LDUSER-06.txt", 6),
   ("LDUSER-07.txt", 7), ("LDUSER-08.txt", 8), ("LDUSER-09.txt", 9),
   ("LDUSER-10.txt", 10), ("LDUSER-11.txt", 11), ("LDUSER-12.txt", 12),
   ("LDUSER-13.txt", 13), ("LDUSER-14.txt", 14), ("LDUSER-15.txt", 15),
   ("notes.md", 99)]

theorem retention_spec_witness :
    (retention_deleted dir0).length = 5 ∧
    (retention_kept dir0).length = 10 ∧
    (∀ d ∈ retention_deleted dir0, ∀ k ∈ retention_kept dir0, d.2 < k.2) ∧
    (∀ d ∈ retention_deleted dir0, sufOf ".txt".data d.1.data = true ∧ d ∈ dir0) ∧
    List.Perm (retention_kept dir0 ++ retention_deleted dir0) (report_dates dir0) :=
  retention_spec dir0 (by decide) (by decide)
